import Mathlib

/-!
Shallow embedding of the yui-couchdb client library
(src/js/couch-connect.js, src/js/couch-document.js, the couch-db module
and the couch-datasource module) for checking its natural-language
specification.

The library is a set of YUI `Base` subclasses (Connect, DB, Document,
View over a shared Couch.Base).  Each entity holds attribute state, a
computed `_uri`, and issues single HTTP requests whose callbacks fire
named events.  We model:
  * JavaScript values reachable by the library as `JValue`
    (JSON values; `Option JValue` models possibly-`undefined` slots);
  * JS truthiness and string coercion;
  * `encodeURIComponent` character-for-character (UTF-8 percent
    encoding of every character outside the unreserved set);
  * each entity's attribute state, the attribute setters from the
    source, the YUI attribute-write discipline (a public `set` of a
    `readOnly` attribute is rejected; the protected `_set` is not),
    and each operation as a pure function from state to the HTTP
    request it issues plus the events it fires synchronously.
-/

/-- JSON/JavaScript values handled by the library.  Object fields are an
ordered association list (JS objects preserve insertion order). -/
inductive JValue where
  | null : JValue
  | bool : Bool → JValue
  | num : Int → JValue
  | str : String → JValue
  | arr : List JValue → JValue
  | obj : List (String × JValue) → JValue

namespace JValue

/-- Property lookup `o[k]` on an object; `none` models JS `undefined`
(missing property, or property access on a non-object value). -/
def get : JValue → String → Option JValue
  | .obj fields, k => fields.lookup k
  | _, _ => none

/-- Property assignment `o[k] = v` on an object: replaces the first
binding of `k` in place if present, otherwise appends it (JS property
insertion order).  On a non-object the write is dropped. -/
def setField : JValue → String → JValue → JValue
  | .obj fields, k, v =>
      .obj (if (fields.lookup k).isSome
            then fields.map (fun kv => if kv.1 = k then (k, v) else kv)
            else fields ++ [(k, v)])
  | j, _, _ => j

/-- JS falsiness of a defined value (`false`, `0`, `""`, `null`). -/
def falsy : JValue → Bool
  | .null => true
  | .bool b => !b
  | .num n => n == 0
  | .str s => s == ""
  | .arr _ => false
  | .obj _ => false

mutual

/-- JS string coercion of a defined value. -/
def toStr : JValue → String
  | .null => "null"
  | .bool b => if b then "true" else "false"
  | .num n => toString n
  | .str s => s
  | .arr xs => String.intercalate "," (toStrList xs)
  | .obj _ => "[object Object]"

/-- JS string coercion of each element of an array. -/
def toStrList : List JValue → List String
  | [] => []
  | x :: xs => toStr x :: toStrList xs

end

/-- `Object.keys` of an object; on a non-object, the empty list. -/
def keys : JValue → List String
  | .obj fields => fields.map Prod.fst
  | _ => []

/-- `Y.Lang.isBoolean`. -/
def isBoolean : JValue → Bool
  | .bool _ => true
  | _ => false

/-- `Y.Lang.isNumber`. -/
def isNumber : JValue → Bool
  | .num _ => true
  | _ => false

/-- `Y.Lang.isString`. -/
def isString : JValue → Bool
  | .str _ => true
  | _ => false

end JValue

/-- JS falsiness of a possibly-`undefined` value (`undefined` is falsy). -/
def jsFalsy : Option JValue → Bool
  | none => true
  | some v => v.falsy

/-- JS string coercion of a possibly-`undefined` value. -/
def jsToStr : Option JValue → String
  | none => "undefined"
  | some v => v.toStr

/-- The characters `encodeURIComponent` leaves unchanged:
`A–Z a–z 0–9 - _ . ! ~ * ' ( )`. -/
def uriUnreserved (c : Char) : Bool :=
  (('A' ≤ c && c ≤ 'Z') || ('a' ≤ c && c ≤ 'z') || ('0' ≤ c && c ≤ '9')
    || c == '-' || c == '_' || c == '.' || c == '!' || c == '~'
    || c == '*' || c == Char.ofNat 39 || c == '(' || c == ')')

/-- Upper-case hexadecimal digit for `d < 16`. -/
def hexDigit (d : Nat) : Char :=
  if d < 10 then Char.ofNat (48 + d) else Char.ofNat (55 + d)

/-- `%XY` percent-escape of one byte. -/
def percentByte (b : Nat) : List Char :=
  ['%', hexDigit (b / 16 % 16), hexDigit (b % 16)]

/-- UTF-8 bytes of a Unicode code point. -/
def utf8Bytes (n : Nat) : List Nat :=
  if n < 0x80 then [n]
  else if n < 0x800 then
    [0xC0 + n / 64, 0x80 + n % 64]
  else if n < 0x10000 then
    [0xE0 + n / 4096, 0x80 + n / 64 % 64, 0x80 + n % 64]
  else
    [0xF0 + n / 262144, 0x80 + n / 4096 % 64, 0x80 + n / 64 % 64, 0x80 + n % 64]

/-- `encodeURIComponent`, one character: unreserved characters pass
through, every other character is percent-encoded byte by byte. -/
def encChar (c : Char) : List Char :=
  if uriUnreserved c then [c] else (utf8Bytes c.toNat).flatMap percentByte

/-- `encodeURIComponent` over a character list. -/
def encList : List Char → List Char
  | [] => []
  | c :: cs => encChar c ++ encList cs

/-- JavaScript `encodeURIComponent`. -/
def encodeURIComponent (s : String) : String :=
  ⟨encList s.data⟩

example : encodeURIComponent "doc1" = "doc1" := by decide
example : encodeURIComponent "%" = "%25" := by decide
example : encodeURIComponent "a/b" = "a%2Fb" := by decide

/-- One HTTP request as issued through a fresh `Y.Couch.DataSource`
(`Y.DataSource.IO`): HTTP method, the `source` URL, the `cfg.data`
payload (query parameters for GET, JSON body for PUT/POST), and the
names of the events the wired callbacks fire on success / failure
(`none` when no callback is wired, as in `replicate`). -/
structure Request where
  method : String
  url : String
  payload : Option JValue
  successEvent : Option String
  failureEvent : Option String

/-- YUI Attribute write discipline for a possibly `readOnly` attribute:
a public `set` of a `readOnly : true` attribute is rejected and leaves
the state unchanged. -/
def yuiSet {σ : Type} (readOnly : Bool) (write : σ → σ) (s : σ) : σ :=
  if readOnly then s else write s

/-- YUI protected `_set`: bypasses the `readOnly` check. -/
def yuiProtectedSet {σ : Type} (write : σ → σ) (s : σ) : σ :=
  write s

/-- Models `Y.QueryString.stringify` as overridden at the bottom of
couch-document.js: booleans are first converted to the literal strings
`"true"`/`"false"`, then the standard YUI serialization renders an
object as `k=v` pairs joined by `&` with keys and values passed through
`encodeURIComponent`. -/
def queryStringStringify : JValue → String
  | .obj fields =>
      String.intercalate "&" (fields.map fun kv =>
        encodeURIComponent kv.1 ++ "=" ++ encodeURIComponent kv.2.toStr)
  | v => v.toStr

/-- `Y.Couch.Connect` attribute state.  `baseURI` has no default value;
`databases` defaults to `[]` and `info` to `{}` (both `readOnly`). -/
structure Connect where
  baseURI : String
  databases : JValue
  info : JValue

namespace Connect

/-- `Connect._baseURISetter`: compares the last character
(`val.substring(length - 1)`) with `'/'` and, when it matches, strips
exactly that one trailing slash (`val.substring(0, length - 1)`). -/
def baseURISetter (val : String) : String :=
  match val.data.getLast? with
  | some '/' => ⟨val.data.dropLast⟩
  | _ => val

/-- Assigning the `baseURI` attribute (runs the setter). -/
def setBaseURI (c : Connect) (val : String) : Connect :=
  { c with baseURI := baseURISetter val }

/-- A `Connect` as constructed with a `baseURI` configuration value.
(The initializer also immediately calls `fetchInfo(true)`.) -/
def new (b : String) : Connect :=
  { baseURI := baseURISetter b, databases := .arr [], info := .obj [] }

/-- The request issued by `Connect.fetchInfo`: GET `{baseURI}/`,
firing `couch:info` on success and `couch:error` on failure. -/
def fetchInfoRequest (c : Connect) : Request :=
  { method := "GET", url := c.baseURI ++ "/", payload := none,
    successEvent := some "couch:info", failureEvent := some "couch:error" }

/-- The request issued by `Connect.fetchAllDatabases`: GET
`{baseURI}/_all_dbs`, firing `couch:fetchAll` / `couch:error`. -/
def fetchAllDatabasesRequest (c : Connect) : Request :=
  { method := "GET", url := c.baseURI ++ "/_all_dbs", payload := none,
    successEvent := some "couch:fetchAll", failureEvent := some "couch:error" }

/-- `Connect._defInfoFn`: stores the `couch:info` response wholesale in
`ATTRS.info` through the protected `_set`. -/
def defInfoFn (c : Connect) (response : JValue) : Connect :=
  yuiProtectedSet (fun c => { c with info := response }) c

/-- `Connect._defFecthAllFn` (source spelling): stores the
`couch:fetchAll` response wholesale in `ATTRS.databases` via `_set`. -/
def defFecthAllFn (c : Connect) (response : JValue) : Connect :=
  yuiProtectedSet (fun c => { c with databases := response }) c

end Connect

/-- `Y.Couch.DB` attribute state plus the prototype property `_uri`.
`baseURI` and `name` default to `''`; `info` and `documents` are
`readOnly` with no default value (undefined). -/
structure DB where
  baseURI : String
  name : String
  _uri : String
  info : Option JValue
  documents : Option JValue

namespace DB

/-- A `DB` before any configuration value is applied. -/
def defaultState : DB :=
  { baseURI := "", name := "", _uri := "", info := none, documents := none }

/-- `DB._baseURISetter`: recomputes `_uri = val + '/' + name + '/'`
from the currently stored `name`, and stores `val`. -/
def baseURISetter (s : DB) (val : String) : DB :=
  { s with baseURI := val, _uri := val ++ "/" ++ s.name ++ "/" }

/-- `DB._nameSetter`: recomputes `_uri = baseURI + '/' + val + '/'`
from the currently stored `baseURI`, and stores `val`. -/
def nameSetter (s : DB) (val : String) : DB :=
  { s with name := val, _uri := s.baseURI ++ "/" ++ val ++ "/" }

/-- A `DB` as constructed with `baseURI` and `name` configuration
values (both setters run during initialization). -/
def new (b n : String) : DB :=
  nameSetter (baseURISetter defaultState b) n

/-- The request issued by `DB.fetchInfo` (also issued immediately by
the `DB` initializer): GET `_uri`, firing `couch:info`/`couch:error`. -/
def fetchInfoRequest (s : DB) : Request :=
  { method := "GET", url := s._uri, payload := none,
    successEvent := some "couch:info", failureEvent := some "couch:error" }

/-- The request issued by `DB.fetchAllDocuments`: GET `_uri + '_all_docs'`
with the caller's options as query data, firing `couch:fetchAll`. -/
def fetchAllDocumentsRequest (s : DB) (options : Option JValue) : Request :=
  { method := "GET", url := s._uri ++ "_all_docs", payload := options,
    successEvent := some "couch:fetchAll", failureEvent := some "couch:error" }

/-- `DB._defInfoFn`: stores the response wholesale in `ATTRS.info`
through the protected `_set`. -/
def defInfoFn (s : DB) (response : JValue) : DB :=
  yuiProtectedSet (fun s => { s with info := some response }) s

/-- `DB._defFecthAllFn` (source spelling): stores the response wholesale
in `ATTRS.documents` through the protected `_set`. -/
def defFecthAllFn (s : DB) (response : JValue) : DB :=
  yuiProtectedSet (fun s => { s with documents := some response }) s

end DB

/-- `Connect.getDatabase(name)`: constructs a `Y.Couch.DB` configured
with this connection's `baseURI` and the given `name`.  Returns the new
entity together with every request issued during the call — the `DB`
initializer immediately calls `fetchInfo()`, which issues its GET. -/
def Connect.getDatabase (c : Connect) (name : String) : DB × List Request :=
  let db := DB.new c.baseURI name
  (db, [db.fetchInfoRequest])

/-- `Connect.replicate` result: the locally logged error messages and
the POST request it sends (no callbacks are wired, so the request fires
no events). -/
structure ReplicateResult where
  logs : List String
  request : Request

/-- `Connect.replicate(source, target, requestConfig)`: logs an error
when `source` AND `target` are both non-strings (`!IS_STRING(source) &&
!IS_STRING(target)`), then unconditionally POSTs to
`{baseURI}/_replicate` with body `requestConfig` (defaulted to `{}`
when falsy) with its `source` and `target` properties assigned. -/
def Connect.replicate (c : Connect) (source target : JValue)
    (requestConfig : Option JValue) : ReplicateResult :=
  let logs :=
    if !source.isString && !target.isString then
      ["Cannot replicate " ++ source.toStr ++ " to " ++ target.toStr ++ "."]
    else []
  let cfg := match requestConfig with
    | some r => if r.falsy then JValue.obj [] else r
    | none => JValue.obj []
  let cfg := (cfg.setField "source" source).setField "target" target
  { logs := logs,
    request := { method := "POST", url := c.baseURI ++ "/_replicate",
                 payload := some cfg,
                 successEvent := none, failureEvent := none } }

/-- `Y.Couch.Document` attribute state plus the prototype property
`_uri`.  `baseURI`, `databaseName` and `id` default to `''`; `info` and
`data` are `readOnly : true` with no default value (undefined). -/
structure Document where
  baseURI : String
  databaseName : String
  id : String
  _uri : String
  info : Option JValue
  data : Option JValue

namespace Document

/-- A `Document` before any configuration value is applied. -/
def defaultState : Document :=
  { baseURI := "", databaseName := "", id := "", _uri := "",
    info := none, data := none }

/-- `Document._baseURISetter`: recomputes
`_uri = val + '/' + databaseName + '/' + id` and stores `val`. -/
def baseURISetter (s : Document) (val : String) : Document :=
  { s with baseURI := val,
           _uri := val ++ "/" ++ s.databaseName ++ "/" ++ s.id }

/-- `Document._databaseNameSetter`: recomputes
`_uri = baseURI + '/' + val + '/' + id` and stores `val`. -/
def databaseNameSetter (s : Document) (val : String) : Document :=
  { s with databaseName := val,
           _uri := s.baseURI ++ "/" ++ val ++ "/" ++ s.id }

/-- `Document._idSetter`: first replaces `val` with
`encodeURIComponent(val)`, then recomputes
`_uri = baseURI + '/' + databaseName + '/' + val` and stores the
ENCODED value in `ATTRS.id`. -/
def idSetter (s : Document) (val : String) : Document :=
  let enc := encodeURIComponent val
  { s with id := enc,
           _uri := s.baseURI ++ "/" ++ s.databaseName ++ "/" ++ enc }

/-- A `Document` as constructed with `baseURI`, `databaseName` and `id`
configuration values (all three setters run during initialization). -/
def new (b d i : String) : Document :=
  idSetter (databaseNameSetter (baseURISetter defaultState b) d) i

/-- The request issued by `Document.fetchInfo` (also issued immediately
by the `Document` initializer): GET `_uri`, firing
`couch:info`/`couch:error`. -/
def fetchInfoRequest (s : Document) : Request :=
  { method := "GET", url := s._uri, payload := none,
    successEvent := some "couch:info", failureEvent := some "couch:error" }

/-- The request issued by `Document.open`: GET `_uri` with the caller's
options as query data, firing `couch:opened`/`couch:error`. -/
def openRequest (s : Document) (options : Option JValue) : Request :=
  { method := "GET", url := s._uri, payload := options,
    successEvent := some "couch:opened", failureEvent := some "couch:error" }

/-- `Document.getAllViews()`: returns the list it produces together
with the events it fires.  Note the source fires the event name
`'EVENT_ERROR'` — a string literal, not the `EVENT_ERROR` constant
holding `'couch:error'` (couch-document.js line 108). -/
def getAllViews (s : Document) : List String × List (String × String) :=
  if jsFalsy s.info || jsFalsy (s.info.bind (fun i => i.get "views")) then
    ([], [("EVENT_ERROR", "There is no information for this document available.")])
  else
    match s.info.bind (fun i => i.get "views") with
    | some views => (views.keys, [])
    | none => ([], [])

/-- Modelled from the spec: `Document.save` calls
`this._queryString(options)` but no file of this repository defines a
`_queryString` member (nor does YUI `Base`).  The spec describes the
URL tail as `[?queryString(options)]` with YUI query-string
serialization and booleans rendered `"true"`/`"false"`, i.e. exactly
the overridden `Y.QueryString.stringify`; we model the missing helper
as that serialization. -/
def queryStringHelper (options : JValue) : String :=
  queryStringStringify options

/-- Outcome of `Document.save`: the (unchanged) entity state, the
events fired synchronously, the request issued (if any), and whether
the call returned `null` instead of a datasource. -/
structure SaveResult where
  state : Document
  events : List (String × String)
  request : Option Request
  returnsNull : Bool

/-- `Document.save(options)`: with no truthy `data._id` it fires
`couch:error` once and returns `null` without sending anything;
otherwise it PUTs to `_uri + encodeURIComponent(data._id)` (appended
directly, no separator), with `'?' + _queryString(options)` appended
when `options !== undefined`, sending `data` as the body and firing
`couch:saved`/`couch:error` from the callbacks. -/
def save (s : Document) (options : Option JValue) : SaveResult :=
  let documentData := s.data
  if jsFalsy documentData ||
     jsFalsy (documentData.bind (fun d => d.get "_id")) then
    { state := s,
      events := [("couch:error", "No data found on the document to save.")],
      request := none,
      returnsNull := true }
  else
    let url := s._uri ++
      encodeURIComponent (jsToStr (documentData.bind (fun d => d.get "_id")))
    let url := match options with
      | none => url
      | some opts => url ++ "?" ++ queryStringHelper opts
    { state := s,
      events := [],
      request := some { method := "PUT", url := url, payload := documentData,
                        successEvent := some "couch:saved",
                        failureEvent := some "couch:error" },
      returnsNull := false }

/-- `Document._defInfoFn`: tries to store the `couch:info` response in
`ATTRS.info` — but through the PUBLIC `this.set` (couch-document.js
line 254), and `ATTRS.info` is `readOnly : true`, so the YUI attribute
layer rejects the write. -/
def defInfoFn (s : Document) (response : JValue) : Document :=
  yuiSet true (fun s => { s with info := some response }) s

/-- `Document._defOpenedFn`: stores the `couch:opened` response
wholesale in `ATTRS.data` through the protected `_set`. -/
def defOpenedFn (s : Document) (response : JValue) : Document :=
  yuiProtectedSet (fun s => { s with data := some response }) s

end Document

/-- `DB.getDocument(id)`: constructs a `Y.Couch.Document` configured
with this database's `baseURI`, its `name` as `databaseName`, and the
given `id`.  The `Document` initializer immediately calls
`fetchInfo()`; the returned list holds every request issued. -/
def DB.getDocument (s : DB) (id : String) : Document × List Request :=
  let doc := Document.new s.baseURI s.name id
  (doc, [doc.fetchInfoRequest])

/-- `Y.Couch.View` attribute state plus the prototype property `_uri`.
Attributes declared with an empty configuration (`endkey`, `key`, …)
have no default value, modelled as `none` (undefined); `descending`,
`group`, `include_docs` default to `false`, `inclusive_end` to `true`,
`skip` to `0`, `name` to `''`. -/
structure View where
  baseURI : Option JValue
  name : JValue
  _uri : String
  data : Option JValue
  descending : Option JValue
  endkey : Option JValue
  endkey_docid : Option JValue
  group : Option JValue
  group_level : Option JValue
  include_docs : Option JValue
  inclusive_end : Option JValue
  key : Option JValue
  limit : Option JValue
  reduce : Option JValue
  skip : Option JValue
  stale : Option JValue
  startkey : Option JValue
  startkey_docid : Option JValue

namespace View

/-- A `View` holding only the ATTRS default values. -/
def defaultState : View :=
  { baseURI := none, name := .str "", _uri := "", data := none,
    descending := some (.bool false), endkey := none, endkey_docid := none,
    group := some (.bool false), group_level := none,
    include_docs := some (.bool false), inclusive_end := some (.bool true),
    key := none, limit := none, reduce := none, skip := some (.num 0),
    stale := none, startkey := none, startkey_docid := none }

/-- The `stale` validator from the source:
`val === 'ok' || val === 'update_after'`. -/
def staleValidator : JValue → Bool
  | .str s => s == "ok" || s == "update_after"
  | _ => false

/-- Assigning one `View` attribute by name, exactly as the ATTRS block
declares it: `descending`, `group`, `include_docs`, `inclusive_end`
and `reduce` carry `validator : isBoolean`; `skip` carries
`validator : isNumber`; `stale` carries the two-literal validator; a
value failing its validator is rejected and the state is unchanged.
`limit` is declared with `validotor : IS_NUMBER` — a misspelling of
`validator` — so NO validator is attached to it and every value is
stored.  `baseURI` and `name` run the `_uri`-rebuilding setters. -/
def set (s : View) (k : String) (v : JValue) : View :=
  if k = "baseURI" then
    { s with baseURI := some v, _uri := v.toStr ++ "/_view/" ++ s.name.toStr }
  else if k = "name" then
    { s with name := v, _uri := jsToStr s.baseURI ++ "/_view/" ++ v.toStr }
  else if k = "data" then
    { s with data := some v }
  else if k = "descending" then
    (if v.isBoolean then { s with descending := some v } else s)
  else if k = "endkey" then
    { s with endkey := some v }
  else if k = "endkey_docid" then
    { s with endkey_docid := some v }
  else if k = "group" then
    (if v.isBoolean then { s with group := some v } else s)
  else if k = "group_level" then
    { s with group_level := some v }
  else if k = "include_docs" then
    (if v.isBoolean then { s with include_docs := some v } else s)
  else if k = "inclusive_end" then
    (if v.isBoolean then { s with inclusive_end := some v } else s)
  else if k = "key" then
    { s with key := some v }
  else if k = "limit" then
    { s with limit := some v }
  else if k = "reduce" then
    (if v.isBoolean then { s with reduce := some v } else s)
  else if k = "skip" then
    (if v.isNumber then { s with skip := some v } else s)
  else if k = "stale" then
    (if staleValidator v then { s with stale := some v } else s)
  else if k = "startkey" then
    { s with startkey := some v }
  else if k = "startkey_docid" then
    { s with startkey_docid := some v }
  else s

/-- A `View` as constructed from a configuration object: every
configured value is applied through `View.set` in order. -/
def init (config : List (String × JValue)) : View :=
  config.foldl (fun s kv => set s kv.1 kv.2) defaultState

/-- `this.getAttrs()` inside `View.fetchData`, as an ordered list of
(attribute name, possibly-undefined value).  The two `Y.Base` lifecycle
attributes and the `Y.Couch.Base` `dataSource` attribute come first
(their values only matter as non-null placeholders — the loop below
skips their keys); the class's own attributes follow in ATTRS
declaration order, which the spec also fixes as the serialization
order. -/
def getAttrsList (s : View) : List (String × Option JValue) :=
  [("destroyed", some (.bool false)),
   ("initialized", some (.bool true)),
   ("dataSource", some (.obj [])),
   ("baseURI", s.baseURI),
   ("name", some s.name),
   ("data", s.data),
   ("descending", s.descending),
   ("endkey", s.endkey),
   ("endkey_docid", s.endkey_docid),
   ("group", s.group),
   ("group_level", s.group_level),
   ("include_docs", s.include_docs),
   ("inclusive_end", s.inclusive_end),
   ("key", s.key),
   ("limit", s.limit),
   ("reduce", s.reduce),
   ("skip", s.skip),
   ("stale", s.stale),
   ("startkey", s.startkey),
   ("startkey_docid", s.startkey_docid)]

/-- The keys `View.fetchData` removes from `getAttrs()` before building
the request data. -/
def excludedKey (k : String) : Bool :=
  k == "baseURI" || k == "name" || k == "dataSource" ||
  k == "destroyed" || k == "initialized" || k == "data"

/-- The `val === null || val === undefined` skip in the clean-up loop. -/
def definedValue : Option JValue → Option JValue
  | none => none
  | some .null => none
  | some v => some v

/-- The `requestData` object built by the clean-up loop in
`View.fetchData`: every attribute whose value is neither `null` nor
`undefined` and whose key is not excluded, in `getAttrs` order. -/
def requestData (s : View) : List (String × JValue) :=
  s.getAttrsList.filterMap fun kv =>
    if excludedKey kv.1 then none
    else (definedValue kv.2).map fun v => (kv.1, v)

/-- The request issued by `View.fetchData`: GET `_uri` with
`requestData` as the query data, firing `couch:data`/`couch:error`. -/
def fetchDataRequest (s : View) : Request :=
  { method := "GET", url := s._uri, payload := some (.obj s.requestData),
    successEvent := some "couch:data", failureEvent := some "couch:error" }

/-- The query string the issued GET carries, rendered from the request
data by the (overridden) `Y.QueryString.stringify`. -/
def fetchDataQuery (s : View) : String :=
  queryStringStringify (.obj s.requestData)

/-- `View._defDataFn`: stores the `couch:data` response wholesale in
`ATTRS.data` through the protected `_set`. -/
def defDataFn (s : View) (response : JValue) : View :=
  yuiProtectedSet (fun s => { s with data := some response }) s

end View

/-- `Document.getView(name, config)`: constructs a `Y.Couch.View` from
`config` with its `name` set to `name` and its `baseURI` set to this
document's `_uri`.  The `View` initializer only publishes events — no
request is issued. -/
def Document.getView (s : Document) (name : String)
    (config : List (String × JValue)) : View :=
  View.init (config ++ [("name", .str name), ("baseURI", .str s._uri)])

/-! ### Properties of the `encodeURIComponent` embedding -/

theorem length_flatMap_percentByte (l : List Nat) :
    (l.flatMap percentByte).length = 3 * l.length := by
  induction l with
  | nil => rfl
  | cons b bs ih =>
      simp [List.flatMap_cons, percentByte, ih]
      omega

theorem utf8Bytes_ne_nil (n : Nat) : utf8Bytes n ≠ [] := by
  unfold utf8Bytes
  split
  · simp
  · split
    · simp
    · split <;> simp

theorem utf8Bytes_length_pos (n : Nat) : 0 < (utf8Bytes n).length := by
  cases h : utf8Bytes n with
  | nil => exact absurd h (utf8Bytes_ne_nil n)
  | cons b bs => simp

theorem encChar_length_pos (c : Char) : 0 < (encChar c).length := by
  unfold encChar
  split
  · simp
  · rw [length_flatMap_percentByte]
    have := utf8Bytes_length_pos c.toNat
    omega

theorem encChar_length_ge_three (c : Char) (h : uriUnreserved c = false) :
    3 ≤ (encChar c).length := by
  unfold encChar
  rw [h]
  simp only [Bool.false_eq_true, if_false]
  rw [length_flatMap_percentByte]
  have := utf8Bytes_length_pos c.toNat
  omega

theorem encList_length_ge (l : List Char) : l.length ≤ (encList l).length := by
  induction l with
  | nil => simp [encList]
  | cons c cs ih =>
      have := encChar_length_pos c
      simp only [encList, List.length_append, List.length_cons]
      omega

theorem encList_length_gt (l : List Char)
    (h : ∃ c ∈ l, uriUnreserved c = false) : l.length < (encList l).length := by
  induction l with
  | nil => simp at h
  | cons c cs ih =>
      simp only [encList, List.length_append, List.length_cons]
      rcases h with ⟨c0, hc0, hbad⟩
      rcases List.mem_cons.mp hc0 with rfl | hc0
      · have h3 := encChar_length_ge_three c0 hbad
        have := encList_length_ge cs
        omega
      · have := ih ⟨c0, hc0, hbad⟩
        have := encChar_length_pos c
        omega

theorem percent_mem_encChar (c : Char) (h : uriUnreserved c = false) :
    '%' ∈ encChar c := by
  unfold encChar
  rw [h]
  simp only [Bool.false_eq_true, if_false]
  rw [List.mem_flatMap]
  obtain ⟨b, hb⟩ := List.exists_mem_of_ne_nil _ (utf8Bytes_ne_nil c.toNat)
  exact ⟨b, hb, by simp [percentByte]⟩

theorem percent_mem_encList (l : List Char)
    (h : ∃ c ∈ l, uriUnreserved c = false) : '%' ∈ encList l := by
  induction l with
  | nil => simp at h
  | cons c cs ih =>
      rcases h with ⟨c0, hc0, hbad⟩
      simp only [encList, List.mem_append]
      rcases List.mem_cons.mp hc0 with rfl | hc0
      · exact Or.inl (percent_mem_encChar c0 hbad)
      · exact Or.inr (ih ⟨c0, hc0, hbad⟩)

theorem encodeURIComponent_ne (s : String)
    (h : ∃ c ∈ s.data, uriUnreserved c = false) : encodeURIComponent s ≠ s := by
  intro he
  have hd : encList s.data = s.data := congrArg String.data he
  have := encList_length_gt s.data h
  rw [hd] at this
  omega

theorem encodeURIComponent_not_idempotent (s : String)
    (h : ∃ c ∈ s.data, uriUnreserved c = false) :
    encodeURIComponent (encodeURIComponent s) ≠ encodeURIComponent s := by
  apply encodeURIComponent_ne
  exact ⟨'%', percent_mem_encList s.data h, by decide⟩

theorem string_append_ne_of_ne (a : String) {x y : String} (h : x ≠ y) :
    a ++ x ≠ a ++ y := by
  intro he
  apply h
  have hd : a.data ++ x.data = a.data ++ y.data := congrArg String.data he
  have := List.append_cancel_left hd
  cases x
  cases y
  exact congrArg String.mk this

/-! ### View attribute keys -/

/-- Every attribute name `getAttrs()` yields on a `View`, in order. -/
def viewAttrKeys : List String :=
  ["destroyed", "initialized", "dataSource", "baseURI", "name", "data",
   "descending", "endkey", "endkey_docid", "group", "group_level",
   "include_docs", "inclusive_end", "key", "limit", "reduce", "skip",
   "stale", "startkey", "startkey_docid"]

/-- The recognized CouchDB view parameters, in ATTRS declaration order. -/
def recognizedViewParams : List String :=
  ["descending", "endkey", "endkey_docid", "group", "group_level",
   "include_docs", "inclusive_end", "key", "limit", "reduce", "skip",
   "stale", "startkey", "startkey_docid"]

theorem view_getAttrs_keys (s : View) :
    (View.getAttrsList s).map Prod.fst = viewAttrKeys := rfl

theorem view_nonexcluded_recognized :
    viewAttrKeys.all
      (fun k => View.excludedKey k || recognizedViewParams.contains k) = true := by
  decide

theorem view_definedValue_some {o : Option JValue} {w : JValue}
    (h : View.definedValue o = some w) : w ≠ JValue.null := by
  match o with
  | none => simp [View.definedValue] at h
  | some .null => simp [View.definedValue] at h
  | some (.bool b) => simp [View.definedValue] at h; subst h; intro hc; cases hc
  | some (.num n) => simp [View.definedValue] at h; subst h; intro hc; cases hc
  | some (.str t) => simp [View.definedValue] at h; subst h; intro hc; cases hc
  | some (.arr xs) => simp [View.definedValue] at h; subst h; intro hc; cases hc
  | some (.obj fs) => simp [View.definedValue] at h; subst h; intro hc; cases hc

/-- Every pair the `fetchData` clean-up loop keeps carries a recognized
view-parameter key and a value that is neither `null` nor undefined. -/
theorem view_requestData_key_recognized (s : View) (k : String) (v : JValue)
    (h : (k, v) ∈ View.requestData s) :
    k ∈ recognizedViewParams ∧ v ≠ JValue.null := by
  rw [View.requestData, List.mem_filterMap] at h
  obtain ⟨⟨k0, v0⟩, hmem, hf⟩ := h
  cases he : View.excludedKey k0 with
  | true => rw [if_pos he] at hf; exact absurd hf (by simp)
  | false =>
      rw [if_neg (by simp [he])] at hf
      cases hdv : View.definedValue v0 with
      | none => rw [hdv] at hf; exact absurd hf (by simp)
      | some w =>
          rw [hdv] at hf
          simp only [Option.map_some', Option.some.injEq, Prod.mk.injEq] at hf
          obtain ⟨hk, hv⟩ := hf
          subst hk
          subst hv
          refine ⟨?_, view_definedValue_some hdv⟩
          have hk0 : k0 ∈ viewAttrKeys := by
            rw [← view_getAttrs_keys s]
            exact List.mem_map_of_mem Prod.fst hmem
          have hall := view_nonexcluded_recognized
          rw [List.all_eq_true] at hall
          have h2 := hall k0 hk0
          rw [he] at h2
          simpa using h2

/-! ### Concrete example states -/

/-- A `Connect` constructed with `baseURI: "http://h"`. -/
def connectH : Connect := Connect.new "http://h"

/-- The `Document` `getDocument("doc1")` builds on database `db` of
`http://h`. -/
def docH : Document := Document.new "http://h" "db" "doc1"

/-- `docH` after a successful `open` stored `{"_id": "doc1"}` as its
`data` (via the protected `_set` in `_defOpenedFn`). -/
def docWithData : Document :=
  { docH with data := some (.obj [("_id", .str "doc1")]) }

/-- `docH` with `data = {}` — a document with no `_id` field. -/
def docEmptyData : Document := { docH with data := some (.obj []) }

/-- A `View` configured with exactly
`{descending: true, limit: 5, stale: "ok"}`. -/
def viewC4 : View :=
  View.init [("descending", .bool true), ("limit", .num 5), ("stale", .str "ok")]

/-! ### Claim theorems -/

/-- C1: every successful fetch stores the parsed response wholesale via
the event's default handler.  This HOLDS for Connect (`info`,
`databases`), DB (`info`, `documents`), `Document.open` (`data`) and
`View.fetchData` (`data`) — but FAILS for `Document.fetchInfo`:
`Document._defInfoFn` calls the public `this.set('info', …)` on the
`readOnly : true` attribute `info`, so the YUI attribute layer rejects
the write; evaluated at a concrete successful response, the document is
unchanged and `info` stays undefined. -/
theorem c1_default_handlers_eval :
    (∀ (c : Connect) (r : JValue), (Connect.defInfoFn c r).info = r) ∧
    (∀ (c : Connect) (r : JValue), (Connect.defFecthAllFn c r).databases = r) ∧
    (∀ (s : DB) (r : JValue), (DB.defInfoFn s r).info = some r) ∧
    (∀ (s : DB) (r : JValue), (DB.defFecthAllFn s r).documents = some r) ∧
    (∀ (s : Document) (r : JValue), (Document.defOpenedFn s r).data = some r) ∧
    (∀ (s : View) (r : JValue), (View.defDataFn s r).data = some r) ∧
    Document.defInfoFn docH (.obj [("db_name", .str "db")]) = docH ∧
    (Document.defInfoFn docH (.obj [("db_name", .str "db")])).info = none :=
  ⟨fun _ _ => rfl, fun _ _ => rfl, fun _ _ => rfl, fun _ _ => rfl,
   fun _ _ => rfl, fun _ _ => rfl, rfl, rfl⟩

/-- C3: `getAllViews()` on a `Document` whose `info` is unset returns
the empty sequence, but the event it fires is literally named
`'EVENT_ERROR'` (the source quotes the constant's name,
couch-document.js line 108), which is not the `couch:error` error
notification. -/
theorem c3_getAllViews_event_eval :
    docH.info = none ∧
    Document.getAllViews docH =
      ([], [("EVENT_ERROR",
             "There is no information for this document available.")]) ∧
    (Document.getAllViews docH).2.map Prod.fst ≠ ["couch:error"] :=
  ⟨rfl, rfl, by decide⟩

theorem jvalue_get_some_obj {d : JValue} {k : String} {v : JValue}
    (h : d.get k = some v) : ∃ fields, d = JValue.obj fields := by
  cases d with
  | obj fields => exact ⟨fields, rfl⟩
  | null => simp [JValue.get] at h
  | bool b => simp [JValue.get] at h
  | num n => simp [JValue.get] at h
  | str t => simp [JValue.get] at h
  | arr xs => simp [JValue.get] at h

/-- C2 counterexample: on a concrete document (`baseURI "http://h"`,
database `db`, id `doc1`, data `{"_id": "doc1"}`) whose resource path
is `http://h/db/doc1`, `save` PUTs to `http://h/db/doc1doc1` — the
encoded `data._id` is appended with NO `/` separator — and not to
`{resourcePath}/{encodeURIComponent(data._id)}` = `http://h/db/doc1/doc1`
as the claim states. -/
theorem c2_save_url_counterexample :
    docWithData._uri = "http://h/db/doc1" ∧
    encodeURIComponent "doc1" = "doc1" ∧
    (Document.save docWithData none).request.map Request.url
      = some "http://h/db/doc1doc1" ∧
    (Document.save docWithData none).request.map Request.url
      ≠ some "http://h/db/doc1/doc1" :=
  ⟨rfl, rfl, rfl, by decide⟩

/-- C2 (amended): for every `Document` whose `data` holds a non-empty
string `_id`, `save(options)` issues a PUT to the URL formed by
appending `encodeURIComponent(data._id)` DIRECTLY to the document's
resource path (no `/` separator), with `'?' + queryString(options)`
appended when `options` is provided, sending `data` as the body; the
wired callbacks fire `couch:saved` on success and `couch:error` on
failure; no synchronous event fires and the entity state is unchanged. -/
theorem c2_save_put_request (s : Document) (idv : String)
    (opts : Option JValue)
    (hid : s.data.bind (fun d => d.get "_id") = some (.str idv))
    (hne : idv ≠ "") :
    Document.save s opts =
      { state := s, events := [], returnsNull := false,
        request := some
          { method := "PUT",
            url := (match opts with
                    | none => s._uri ++ encodeURIComponent idv
                    | some o => s._uri ++ encodeURIComponent idv ++ "?" ++
                                Document.queryStringHelper o),
            payload := s.data,
            successEvent := some "couch:saved",
            failureEvent := some "couch:error" } } := by
  cases hsd : s.data with
  | none => rw [hsd] at hid; exact absurd hid (by simp)
  | some d =>
      rw [hsd] at hid
      rw [Option.some_bind] at hid
      obtain ⟨fields, rfl⟩ := jvalue_get_some_obj hid
      unfold Document.save
      rw [hsd]
      simp only [Option.some_bind, hid, jsFalsy, JValue.falsy, jsToStr,
                 JValue.toStr, Bool.false_or]
      have hcond : ¬((idv == "") = true) := by simp [hne]
      simp only [if_neg hcond]

/-- C2 witness: the amended save contract evaluated on the concrete
document of the counterexample. -/
theorem c2_save_put_request_witness :
    Document.save docWithData none =
      { state := docWithData, events := [], returnsNull := false,
        request := some
          { method := "PUT", url := "http://h/db/doc1doc1",
            payload := docWithData.data,
            successEvent := some "couch:saved",
            failureEvent := some "couch:error" } } :=
  c2_save_put_request docWithData "doc1" none rfl (by decide)

/-- C4 counterexample: for a `View` configured with exactly
`{descending: true, limit: 5, stale: "ok"}`, the issued query string is
NOT `descending=true&limit=5&stale=ok` — the attributes with ATTRS
default values (`group=false`, `include_docs=false`,
`inclusive_end=true`, `skip=0`) are serialized as well. -/
theorem c4_query_counterexample :
    View.fetchDataQuery viewC4 ≠ "descending=true&limit=5&stale=ok" := by
  decide

/-- C4 (amended): `View.fetchData` serializes only the recognized
CouchDB view parameters, omitting fields whose value is `null` or
absent — but attributes carrying an ATTRS default value are always
present, so for a View configured with exactly
`{descending: true, limit: 5, stale: "ok"}` the issued query string
(in declaration order, booleans as the literal strings
`"true"`/`"false"`) is
`descending=true&group=false&include_docs=false&inclusive_end=true&limit=5&skip=0&stale=ok`. -/
theorem c4_query_serialization :
    (∀ (s : View) (k : String) (v : JValue),
        (k, v) ∈ View.requestData s →
        k ∈ recognizedViewParams ∧ v ≠ JValue.null) ∧
    View.fetchDataQuery viewC4 =
      "descending=true&group=false&include_docs=false&inclusive_end=true&limit=5&skip=0&stale=ok" :=
  ⟨view_requestData_key_recognized, by decide⟩

/-- C4 witness: the serialization contract applied to the concrete
configuration `{descending: true, limit: 5, stale: "ok"}`. -/
theorem c4_query_serialization_witness :
    ("descending" : String) ∈ recognizedViewParams ∧
    JValue.bool true ≠ JValue.null :=
  c4_query_serialization.1 viewC4 "descending" (.bool true)
    (List.Mem.head _)

/-- C5: the View parameter validators.  `descending`, `group`,
`include_docs`, `inclusive_end`, `reduce` reject non-booleans, `skip`
rejects non-numbers and `stale` rejects everything but `"ok"` and
`"update_after"` (the state keeps its previous value) — but the claim
FAILS for `limit`: its ATTRS entry spells the key `validotor`, so no
validator is attached and the non-numeric value `"bogus"` is accepted
and stored. -/
theorem c5_limit_validator_typo :
    (View.set View.defaultState "limit" (.str "bogus")).limit
      = some (.str "bogus") ∧
    View.set View.defaultState "stale" (.str "bogus")
      = View.defaultState ∧
    View.set View.defaultState "descending" (.str "bogus")
      = View.defaultState ∧
    View.set View.defaultState "group" (.str "bogus")
      = View.defaultState ∧
    View.set View.defaultState "include_docs" (.num 1)
      = View.defaultState ∧
    View.set View.defaultState "inclusive_end" (.str "true")
      = View.defaultState ∧
    View.set View.defaultState "reduce" (.num 0)
      = View.defaultState ∧
    View.set View.defaultState "skip" (.str "bogus")
      = View.defaultState ∧
    (View.set View.defaultState "stale" (.str "update_after")).stale
      = some (.str "update_after") :=
  ⟨rfl, rfl, rfl, rfl, rfl, rfl, rfl, rfl, rfl⟩

/-- C6: `save(options)` on a `Document` whose `data` is absent or has
no `_id` field fires `couch:error` exactly once, returns `null`, issues
no HTTP request, and leaves the entity state unchanged. -/
theorem c6_save_missing_id (s : Document) (options : Option JValue)
    (h : s.data = none ∨ s.data.bind (fun d => d.get "_id") = none) :
    Document.save s options =
      { state := s,
        events := [("couch:error", "No data found on the document to save.")],
        request := none, returnsNull := true } := by
  unfold Document.save
  rcases h with h | h
  · rw [h]
    rfl
  · simp only [h, jsFalsy, Bool.or_true, if_true]

/-- C6 witness: `save` on a document whose `data` is `{}`. -/
theorem c6_save_missing_id_witness :
    Document.save docEmptyData none =
      { state := docEmptyData,
        events := [("couch:error", "No data found on the document to save.")],
        request := none, returnsNull := true } :=
  c6_save_missing_id docEmptyData none (Or.inr rfl)

/-- C7 counterexample: `getDatabase("d")` on a Connect at `http://h`
does issue an HTTP request — constructing the returned `DB` immediately
runs its initializer, which calls `fetchInfo()` and GETs
`http://h/d/`. -/
theorem c7_getDatabase_counterexample :
    ((connectH.getDatabase "d").2).map Request.url = ["http://h/d/"] ∧
    (connectH.getDatabase "d").2 ≠ [] :=
  ⟨rfl, fun hc => absurd (congrArg List.length hc) (by decide)⟩

/-- C7 (amended): `getDatabase(name)` returns a new `DB` whose
`baseURI` equals the Connect's `baseURI` and whose `name` equals the
given name; `getDatabase` itself wires no request, but the `DB`
initializer immediately issues its `fetchInfo` GET to
`{baseURI}/{name}/`, so exactly that one request is issued during the
call. -/
theorem c7_getDatabase (c : Connect) (name : String) :
    ((c.getDatabase name).1).baseURI = c.baseURI ∧
    ((c.getDatabase name).1).name = name ∧
    (c.getDatabase name).2 =
      [{ method := "GET", url := c.baseURI ++ "/" ++ name ++ "/",
         payload := none, successEvent := some "couch:info",
         failureEvent := some "couch:error" }] :=
  ⟨rfl, rfl, rfl⟩

/-- C8 counterexample: `replicate(42, "t", undefined)` — `source` is
not a string — logs nothing (the guard requires BOTH arguments to be
non-strings) and still issues the POST to `{baseURI}/_replicate`,
contradicting the claimed log-and-abort behavior. -/
theorem c8_replicate_counterexample :
    (connectH.replicate (.num 42) (.str "t") none).logs = [] ∧
    (connectH.replicate (.num 42) (.str "t") none).request.method
      = "POST" ∧
    (connectH.replicate (.num 42) (.str "t") none).request.url
      = "http://h/_replicate" :=
  ⟨rfl, rfl, rfl⟩

/-- C8 (amended): `replicate(source, target, config)` logs an error
locally exactly when BOTH `source` and `target` are non-strings
(nothing is thrown), and in every case — arguments valid or not — it
POSTs to `{baseURI}/_replicate` with body `{...config, source,
target}`; no callback is wired, so the request fires no completion (or
any other) event. -/
theorem c8_replicate (c : Connect) (source target : JValue)
    (requestConfig : Option JValue) :
    ((c.replicate source target requestConfig).logs ≠ [] ↔
      (source.isString = false ∧ target.isString = false)) ∧
    (c.replicate source target requestConfig).request.method = "POST" ∧
    (c.replicate source target requestConfig).request.url
      = c.baseURI ++ "/_replicate" ∧
    (c.replicate source target requestConfig).request.payload =
      some (((match requestConfig with
              | some r => if r.falsy then JValue.obj [] else r
              | none => JValue.obj []).setField "source" source).setField
                "target" target) ∧
    (c.replicate source target requestConfig).request.successEvent
      = none ∧
    (c.replicate source target requestConfig).request.failureEvent
      = none := by
  refine ⟨?_, rfl, rfl, rfl, rfl, rfl⟩
  cases hs : source.isString <;> cases ht : target.isString <;>
    simp [Connect.replicate, hs, ht]

/-- C9: assigning `baseURI` and `name` of a `DB` in either order, from
any prior state, leaves the resource path `_uri` equal to
`baseURI + "/" + name + "/"`. -/
theorem c9_db_uri_order_independent (s : DB) (b n : String) :
    (DB.nameSetter (DB.baseURISetter s b) n)._uri = b ++ "/" ++ n ++ "/" ∧
    (DB.baseURISetter (DB.nameSetter s n) b)._uri = b ++ "/" ++ n ++ "/" :=
  ⟨rfl, rfl⟩

/-- For a document whose `data._id` is a non-empty string `idv`,
`save()` targets `_uri ++ encodeURIComponent(idv)` — `save` re-encodes
`data._id` when building the PUT URL. -/
theorem document_save_url (s : Document) (idv : String)
    (hid : s.data.bind (fun d => d.get "_id") = some (.str idv))
    (hne : idv ≠ "") :
    (Document.save s none).request.map Request.url
      = some (s._uri ++ encodeURIComponent idv) := by
  cases hsd : s.data with
  | none => rw [hsd] at hid; exact absurd hid (by simp)
  | some d =>
      rw [hsd] at hid
      rw [Option.some_bind] at hid
      obtain ⟨fields, rfl⟩ := jvalue_get_some_obj hid
      unfold Document.save
      rw [hsd]
      simp only [Option.some_bind, hid, jsFalsy, JValue.falsy, jsToStr,
                 JValue.toStr, Bool.false_or]
      have hcond : ¬((idv == "") = true) := by simp [hne]
      simp only [if_neg hcond]
      rfl

/-- C10: `_idSetter` stores `encodeURIComponent(val)`, so reading `id`
back yields the encoded form; for any id containing a character
`encodeURIComponent` changes, the read-back value differs from the
assigned one, re-assigning the id the attribute currently reports
double-encodes the stored value and changes the resource path; and
`save` applies `encodeURIComponent` to `data._id` again when building
the PUT URL. -/
theorem c10_id_double_encoding (s : Document) (v : String)
    (h : ∃ c ∈ v.data, uriUnreserved c = false) :
    (Document.idSetter s v).id = encodeURIComponent v ∧
    (Document.idSetter s v).id ≠ v ∧
    (Document.idSetter (Document.idSetter s v)
        ((Document.idSetter s v).id)).id ≠ (Document.idSetter s v).id ∧
    (Document.idSetter (Document.idSetter s v)
        ((Document.idSetter s v).id))._uri ≠ (Document.idSetter s v)._uri ∧
    (∀ (t : Document) (w : String), w ≠ "" →
       t.data.bind (fun d => d.get "_id") = some (.str w) →
       (Document.save t none).request.map Request.url
         = some (t._uri ++ encodeURIComponent w)) := by
  refine ⟨rfl, encodeURIComponent_ne v h, ?_, ?_, ?_⟩
  · exact encodeURIComponent_not_idempotent v h
  · exact string_append_ne_of_ne _ (encodeURIComponent_not_idempotent v h)
  · exact fun t w hw hid => document_save_url t w hid hw

/-- C10 witness: evaluated at the id `"%"` (encoded to `"%25"`, then
double-encoded to `"%2525"`) and at the concrete saved document. -/
theorem c10_id_double_encoding_witness :
    (Document.idSetter docH "%").id = "%25" ∧
    (Document.idSetter docH "%").id ≠ "%" ∧
    (Document.idSetter (Document.idSetter docH "%")
        ((Document.idSetter docH "%").id)).id
      ≠ (Document.idSetter docH "%").id ∧
    (Document.save docWithData none).request.map Request.url
      = some (docWithData._uri ++ encodeURIComponent "doc1") := by
  have h := c10_id_double_encoding docH "%" ⟨'%', by decide, by decide⟩
  exact ⟨h.1, h.2.1, h.2.2.1, h.2.2.2.2 docWithData "doc1" (by decide) rfl⟩
